import Mathlib

/-!
Verification of the DT-Request / DT-Response UDP protocol implemented by
`server.py` and `client.py` (COSC264 date-time assignment).

The development shallowly embeds the two Python modules:

* packets travel as `List Nat` (one entry per byte);
* Python `str.encode("UTF-8")` / `bytes.decode("UTF-8")` are embedded as an
  executable UTF-8 codec over `List Nat` (`utf8EncodeChars`, `utf8DecodeBytes`);
* `datetime.now()` is hoisted into explicit `year month day hour minute`
  parameters;
* the client validation exits (`sys.exit`) become an `Except RejectReason`
  result, and the server dropping a datagram becomes an `Option` result.
-/

/-! ## UTF-8 codec

Embeds the strict Python UTF-8 encoder/decoder: `utf8EncodeChar` produces the
standard 1-4 byte encoding of a unicode scalar value, and `utf8DecodeChar`
accepts exactly the valid encodings (rejecting overlong forms, surrogates and
out-of-range values, as `bytes.decode("UTF-8")` does). -/

def utf8EncodeChar (c : Char) : List Nat :=
  if c.toNat < 0x80 then [c.toNat]
  else if c.toNat < 0x800 then
    [0xC0 + c.toNat / 64, 0x80 + c.toNat % 64]
  else if c.toNat < 0x10000 then
    [0xE0 + c.toNat / 4096, 0x80 + c.toNat / 64 % 64, 0x80 + c.toNat % 64]
  else
    [0xF0 + c.toNat / 262144, 0x80 + c.toNat / 4096 % 64, 0x80 + c.toNat / 64 % 64,
      0x80 + c.toNat % 64]

/-- UTF-8 encoding of a list of characters (Python `str.encode("UTF-8")`). -/
def utf8EncodeChars : List Char → List Nat
  | [] => []
  | c :: cs => utf8EncodeChar c ++ utf8EncodeChars cs

/-- UTF-8 encoding of a string, as a byte list. -/
def utf8Encode (s : String) : List Nat := utf8EncodeChars s.data

/-- Decode one UTF-8 character from the front of a byte list, returning the
character and the remaining bytes; `none` on any invalid byte sequence. -/
def utf8DecodeChar : List Nat → Option (Char × List Nat)
  | [] => none
  | b0 :: rest =>
    if b0 < 0x80 then some (Char.ofNat b0, rest)
    else if b0 < 0xC2 then none
    else if b0 < 0xE0 then
      match rest with
      | b1 :: rest1 =>
        if 0x80 ≤ b1 ∧ b1 < 0xC0 then
          some (Char.ofNat ((b0 - 0xC0) * 64 + (b1 - 0x80)), rest1)
        else none
      | [] => none
    else if b0 < 0xF0 then
      match rest with
      | b1 :: b2 :: rest2 =>
        if (0x80 ≤ b1 ∧ b1 < 0xC0) ∧ (0x80 ≤ b2 ∧ b2 < 0xC0) then
          if (b0 - 0xE0) * 4096 + (b1 - 0x80) * 64 + (b2 - 0x80) < 0x800
              ∨ (0xD800 ≤ (b0 - 0xE0) * 4096 + (b1 - 0x80) * 64 + (b2 - 0x80)
                  ∧ (b0 - 0xE0) * 4096 + (b1 - 0x80) * 64 + (b2 - 0x80) < 0xE000) then
            none
          else
            some (Char.ofNat ((b0 - 0xE0) * 4096 + (b1 - 0x80) * 64 + (b2 - 0x80)), rest2)
        else none
      | _ => none
    else if b0 < 0xF5 then
      match rest with
      | b1 :: b2 :: b3 :: rest3 =>
        if (0x80 ≤ b1 ∧ b1 < 0xC0) ∧ (0x80 ≤ b2 ∧ b2 < 0xC0) ∧ (0x80 ≤ b3 ∧ b3 < 0xC0) then
          if (b0 - 0xF0) * 262144 + (b1 - 0x80) * 4096 + (b2 - 0x80) * 64 + (b3 - 0x80) < 0x10000
              ∨ 0x110000 ≤ (b0 - 0xF0) * 262144 + (b1 - 0x80) * 4096 + (b2 - 0x80) * 64
                  + (b3 - 0x80) then
            none
          else
            some (Char.ofNat ((b0 - 0xF0) * 262144 + (b1 - 0x80) * 4096 + (b2 - 0x80) * 64
              + (b3 - 0x80)), rest3)
        else none
      | _ => none
    else none

/-- Fuel-indexed UTF-8 decoding loop (structural recursion on the fuel so the
definition computes by `decide`/`rfl`). -/
def utf8DecodeAux : Nat → List Nat → Option (List Char)
  | _, [] => some []
  | 0, _ :: _ => none
  | fuel + 1, b :: bs =>
    match utf8DecodeChar (b :: bs) with
    | none => none
    | some (c, r) => (utf8DecodeAux fuel r).map (fun cs => c :: cs)

/-- Strict UTF-8 decoding of a whole byte list (Python `bytes.decode("UTF-8")`):
`none` exactly when the bytes are not valid UTF-8. -/
def utf8DecodeBytes (l : List Nat) : Option (List Char) := utf8DecodeAux l.length l

theorem utf8EncodeChar_ne_nil (c : Char) : utf8EncodeChar c ≠ [] := by
  unfold utf8EncodeChar
  split_ifs <;> simp

/-- Decoding one character from an encoded character followed by arbitrary
bytes succeeds and consumes exactly the encoding. -/
theorem utf8DecodeChar_encode (c : Char) (rest : List Nat) :
    utf8DecodeChar (utf8EncodeChar c ++ rest) = some (c, rest) := by
  have hv : c.toNat < 0xD800 ∨ (0xE000 ≤ c.toNat ∧ c.toNat < 0x110000) := by
    have h := c.valid
    unfold UInt32.isValidChar at h
    exact h
  by_cases h1 : c.toNat < 0x80
  · unfold utf8EncodeChar
    rw [if_pos h1, List.cons_append, List.nil_append]
    simp only [utf8DecodeChar]
    rw [if_pos h1, Char.ofNat_toNat]
  · by_cases h2 : c.toNat < 0x800
    · unfold utf8EncodeChar
      rw [if_neg h1, if_pos h2, List.cons_append, List.cons_append, List.nil_append]
      simp only [utf8DecodeChar]
      have k1 : ¬(0xC0 + c.toNat / 64 < 0x80) := by omega
      have k2 : ¬(0xC0 + c.toNat / 64 < 0xC2) := by omega
      have k3 : 0xC0 + c.toNat / 64 < 0xE0 := by omega
      have k4 : 0x80 ≤ 0x80 + c.toNat % 64 ∧ 0x80 + c.toNat % 64 < 0xC0 := by omega
      rw [if_neg k1, if_neg k2, if_pos k3, if_pos k4]
      have e : (0xC0 + c.toNat / 64 - 0xC0) * 64 + (0x80 + c.toNat % 64 - 0x80) = c.toNat := by
        omega
      rw [e, Char.ofNat_toNat]
    · by_cases h3 : c.toNat < 0x10000
      · unfold utf8EncodeChar
        rw [if_neg h1, if_neg h2, if_pos h3, List.cons_append, List.cons_append,
          List.cons_append, List.nil_append]
        simp only [utf8DecodeChar]
        have k1 : ¬(0xE0 + c.toNat / 4096 < 0x80) := by omega
        have k2 : ¬(0xE0 + c.toNat / 4096 < 0xC2) := by omega
        have k3 : ¬(0xE0 + c.toNat / 4096 < 0xE0) := by omega
        have k4 : 0xE0 + c.toNat / 4096 < 0xF0 := by omega
        have k5 : (0x80 ≤ 0x80 + c.toNat / 64 % 64 ∧ 0x80 + c.toNat / 64 % 64 < 0xC0)
            ∧ (0x80 ≤ 0x80 + c.toNat % 64 ∧ 0x80 + c.toNat % 64 < 0xC0) := by omega
        rw [if_neg k1, if_neg k2, if_neg k3, if_pos k4, if_pos k5]
        have e : (0xE0 + c.toNat / 4096 - 0xE0) * 4096 + (0x80 + c.toNat / 64 % 64 - 0x80) * 64
            + (0x80 + c.toNat % 64 - 0x80) = c.toNat := by omega
        rw [e, if_neg (by omega), Char.ofNat_toNat]
      · unfold utf8EncodeChar
        rw [if_neg h1, if_neg h2, if_neg h3, List.cons_append, List.cons_append,
          List.cons_append, List.cons_append, List.nil_append]
        simp only [utf8DecodeChar]
        have k1 : ¬(0xF0 + c.toNat / 262144 < 0x80) := by omega
        have k2 : ¬(0xF0 + c.toNat / 262144 < 0xC2) := by omega
        have k3 : ¬(0xF0 + c.toNat / 262144 < 0xE0) := by omega
        have k4 : ¬(0xF0 + c.toNat / 262144 < 0xF0) := by omega
        have k5 : 0xF0 + c.toNat / 262144 < 0xF5 := by omega
        have k6 : (0x80 ≤ 0x80 + c.toNat / 4096 % 64 ∧ 0x80 + c.toNat / 4096 % 64 < 0xC0)
            ∧ (0x80 ≤ 0x80 + c.toNat / 64 % 64 ∧ 0x80 + c.toNat / 64 % 64 < 0xC0)
            ∧ (0x80 ≤ 0x80 + c.toNat % 64 ∧ 0x80 + c.toNat % 64 < 0xC0) := by omega
        rw [if_neg k1, if_neg k2, if_neg k3, if_neg k4, if_pos k5, if_pos k6]
        have e : (0xF0 + c.toNat / 262144 - 0xF0) * 262144
            + (0x80 + c.toNat / 4096 % 64 - 0x80) * 4096
            + (0x80 + c.toNat / 64 % 64 - 0x80) * 64 + (0x80 + c.toNat % 64 - 0x80)
            = c.toNat := by omega
        rw [e, if_neg (by omega), Char.ofNat_toNat]

/-- With enough fuel, decoding an encoded character list gives it back. -/
theorem utf8DecodeAux_encode (cs : List Char) (fuel : Nat)
    (h : (utf8EncodeChars cs).length ≤ fuel) :
    utf8DecodeAux fuel (utf8EncodeChars cs) = some cs := by
  induction cs generalizing fuel with
  | nil => cases fuel <;> simp [utf8EncodeChars, utf8DecodeAux]
  | cons c cs ih =>
    obtain ⟨b, bs, hb⟩ : ∃ b bs, utf8EncodeChar c = b :: bs := by
      cases hE : utf8EncodeChar c with
      | nil => exact absurd hE (utf8EncodeChar_ne_nil c)
      | cons b bs => exact ⟨b, bs, rfl⟩
    have hlen : (utf8EncodeChars (c :: cs)).length
        = (utf8EncodeChar c).length + (utf8EncodeChars cs).length := by
      simp only [utf8EncodeChars, List.length_append]
    cases fuel with
    | zero =>
      exfalso
      rw [hlen, hb] at h
      simp at h
    | succ fuel =>
      have hdec := utf8DecodeChar_encode c (utf8EncodeChars cs)
      simp only [utf8EncodeChars] at *
      rw [hb, List.cons_append] at hdec h ⊢
      rw [utf8DecodeAux, hdec]
      have hfuel : (utf8EncodeChars cs).length ≤ fuel := by
        simp only [List.length_cons, List.length_append] at h
        omega
      dsimp only
      rw [ih fuel hfuel]
      rfl

/-- UTF-8 round trip at the byte level: decoding an encoded character list
recovers exactly that list. -/
theorem utf8DecodeBytes_encode (cs : List Char) :
    utf8DecodeBytes (utf8EncodeChars cs) = some cs :=
  utf8DecodeAux_encode cs _ le_rfl

/-- UTF-8 round trip for strings. -/
theorem utf8DecodeBytes_utf8Encode (s : String) :
    utf8DecodeBytes (utf8Encode s) = some s.data :=
  utf8DecodeBytes_encode s.data

/-! ## Protocol constants (server.py lines 19-25, client.py lines 18-24) -/

def MAGIC_NUMBER : Nat := 0x497E

def DT_REQ : Nat := 0x0001

def DT_RES : Nat := 0x0002

def REQ_DATE : Nat := 0x0001

def REQ_TIME : Nat := 0x0002

namespace Server

/-- Month-name table `MONTHS` (server.py lines 33-38); a language code outside
the dict raises `KeyError` in Python and is modelled by `[]` (never reached:
the server only looks up codes 1-3 of its own `languages` table). -/
def MONTHS : Nat → List String
  | 1 => ["January", "February", "March", "April", "May", "June",
          "July", "August", "September", "October", "November", "December"]
  | 2 => ["Kohitātea", "Hui-tanguru", "Poutū-te-rangi", "Paenga-whāwhā", "Haratua", "Pipiri",
          "Hōngongoi", "Here-turi-kōkā", "Mahuru", "Whiringa-ā-nuku", "Whiringa-ā-rangi",
          "Hakihea"]
  | 3 => ["Januar", "Februar", "März", "April", "Mai", "Juni",
          "Juli", "August", "September", "Oktober", "November", "Dezember"]
  | _ => []

/-- Date template `STRINGS[lang_code][0]` applied to
`(MONTHS[lang_code][month-1], day, year)` (server.py lines 29-31, 128). -/
def date_text (lang_code month day year : Nat) : String :=
  match lang_code with
  | 1 => "Today\x27s date is " ++ (MONTHS 1).getD (month - 1) "" ++ " " ++ Nat.repr day
          ++ ", " ++ Nat.repr year
  | 2 => "Ko te ra o tenei ra ko " ++ (MONTHS 2).getD (month - 1) "" ++ " " ++ Nat.repr day
          ++ ", " ++ Nat.repr year
  | 3 => "Heute ist der " ++ Nat.repr day ++ ". " ++ (MONTHS 3).getD (month - 1) ""
          ++ " " ++ Nat.repr year
  | _ => ""

/-- Zero-padded decimal rendering, Python format spec `{0:02d}`. -/
def zeroPad (width n : Nat) : String :=
  String.mk (List.replicate (width - (Nat.repr n).length) '0') ++ Nat.repr n

/-- Time template `STRINGS[lang_code][1]` applied to `(hour, minute)` with
`{0:02d}:{1:02d}` formatting (server.py lines 29-31, 130). -/
def time_text (lang_code hour minute : Nat) : String :=
  match lang_code with
  | 1 => "The current time is " ++ zeroPad 2 hour ++ ":" ++ zeroPad 2 minute
  | 2 => "Ko te wa o tenei wa " ++ zeroPad 2 hour ++ ":" ++ zeroPad 2 minute
  | 3 => "Die Uhrzeit ist " ++ zeroPad 2 hour ++ ":" ++ zeroPad 2 minute
  | _ => ""

/-- The `text_string` computed by `create_packet` (server.py lines 126-130):
empty unless `request_type` is `REQ_DATE` or `REQ_TIME` (the two `if`s in the
source are sequential but mutually exclusive). -/
def response_text (request_type lang_code year month day hour minute : Nat) : String :=
  if request_type = REQ_DATE then date_text lang_code month day year
  else if request_type = REQ_TIME then time_text lang_code hour minute
  else ""

/-- Function `create_packet` (server.py lines 105-148), with `datetime.now()` hoisted
into the `year month day hour minute` parameters.  The bytearray writes at
lines 137-146 produce exactly this byte list: big-endian 2-byte magic number,
packet type `DT_RES`, language code and year, then the four single-byte
fields, the text length byte and the UTF-8 text. -/
def create_packet (request_type lang_code year month day hour minute : Nat) : List Nat :=
  [0x49, 0x7E, 0x00, 0x02, lang_code / 256, lang_code % 256, year / 256, year % 256,
    month, day, hour, minute,
    (utf8Encode (response_text request_type lang_code year month day hour minute)).length]
  ++ utf8Encode (response_text request_type lang_code year month day hour minute)

/-- Function `process_packet` (server.py lines 72-102): `none` models the `return None`
drops; on success the source returns `int.from_bytes(packet[5:6], "big")`,
which is the single byte at index 5. -/
def process_packet (packet : List Nat) : Option Nat :=
  if packet.length ≠ 6 then none
  else if packet.getD 0 0 * 256 + packet.getD 1 0 ≠ MAGIC_NUMBER then none
  else if packet.getD 2 0 * 256 + packet.getD 3 0 ≠ DT_REQ then none
  else some (packet.getD 5 0)

/-- One iteration of the server receive loop for one datagram
(server.py lines 184-196): decode, and reply only when `process_packet`
returned a value that is Python-truthy (`if request:` at line 191, which is
false both for `None` and for the integer `0`). -/
def handle_datagram (packet : List Nat) (lang_code year month day hour minute : Nat) :
    Option (List Nat) :=
  match process_packet packet with
  | none => none
  | some request =>
    if request = 0 then none
    else some (create_packet request lang_code year month day hour minute)

/-- One incoming datagram together with the language of the socket it arrived
on and the wall-clock instant at which it is served. -/
structure Arrival where
  packet : List Nat
  lang_code : Nat
  year : Nat
  month : Nat
  day : Nat
  hour : Nat
  minute : Nat

/-- The server receive loop (server.py lines 180-196) over a finite arrival
sequence: every datagram is handled in turn (the loop body contains no exit,
so processing always continues with the next datagram). -/
def run : List Arrival → List (Option (List Nat))
  | [] => []
  | a :: rest => handle_datagram a.packet a.lang_code a.year a.month a.day a.hour a.minute :: run rest

end Server

namespace Client

/-- The distinct failure exits of the client (client.py: the `sys.exit()`
calls of `process_packet` at lines 130-172, plus the `UnicodeDecodeError`
that `packet[13:].decode("UTF-8")` at line 181 would raise). -/
inductive RejectReason where
  | malformed
  | badMagic
  | wrongPacketType
  | invalidLanguage
  | invalidYear
  | invalidMonth
  | invalidDay
  | invalidHour
  | invalidMinute
  | lengthMismatch
  | invalidEncoding
  deriving DecidableEq, Repr

/-- The fields of an accepted DT-Response as the client extracts them. -/
structure Response where
  languageCode : Nat
  year : Nat
  month : Nat
  day : Nat
  hour : Nat
  minute : Nat
  text : String
  deriving DecidableEq, Repr

/-- Field `rec_magic_num` (client.py line 135). -/
def rec_magic_num (p : List Nat) : Nat := p.getD 0 0 * 256 + p.getD 1 0

/-- Field `rec_packet_type` (client.py line 136). -/
def rec_packet_type (p : List Nat) : Nat := p.getD 2 0 * 256 + p.getD 3 0

/-- Field `rec_lang_code` (client.py line 137). -/
def rec_lang_code (p : List Nat) : Nat := p.getD 4 0 * 256 + p.getD 5 0

/-- Field `rec_year` (client.py line 138). -/
def rec_year (p : List Nat) : Nat := p.getD 6 0 * 256 + p.getD 7 0

/-- Field `rec_month` (client.py line 139). -/
def rec_month (p : List Nat) : Nat := p.getD 8 0

/-- Field `rec_day` (client.py line 140). -/
def rec_day (p : List Nat) : Nat := p.getD 9 0

/-- Field `rec_hour` (client.py line 141). -/
def rec_hour (p : List Nat) : Nat := p.getD 10 0

/-- Field `rec_min` (client.py line 142). -/
def rec_min (p : List Nat) : Nat := p.getD 11 0

/-- Field `rec_len` (client.py line 143). -/
def rec_len (p : List Nat) : Nat := p.getD 12 0

/-- The validation part of the client function `process_packet` (client.py lines
121-181), with each `sys.exit()` mapped to its `RejectReason`.  The checks
appear in exactly the source order; `rec_hour < 0` and `rec_min < 0` of lines
164 and 167 are vacuous on bytes and are dropped.  The final UTF-8 decode of
line 181 is the last way the function can fail. -/
def process_packet (p : List Nat) : Except RejectReason Response :=
  if p.length < 13 then .error .malformed
  else if rec_magic_num p ≠ MAGIC_NUMBER then .error .badMagic
  else if rec_packet_type p ≠ DT_RES then .error .wrongPacketType
  else if ¬(rec_lang_code p = 1 ∨ rec_lang_code p = 2 ∨ rec_lang_code p = 3) then
    .error .invalidLanguage
  else if 2100 ≤ rec_year p then .error .invalidYear
  else if rec_month p < 1 ∨ 12 < rec_month p then .error .invalidMonth
  else if rec_day p < 1 ∨ 31 < rec_day p then .error .invalidDay
  else if 24 < rec_hour p then .error .invalidHour
  else if 60 < rec_min p then .error .invalidMinute
  else if rec_len p + 13 ≠ p.length then .error .lengthMismatch
  else
    match utf8DecodeBytes (p.drop 13) with
    | none => .error .invalidEncoding
    | some cs =>
      .ok ⟨rec_lang_code p, rec_year p, rec_month p, rec_day p, rec_hour p, rec_min p,
        String.mk cs⟩

/-- All checks of `process_packet` that fail on `p`, listed in the source
order of client.py lines 130-181. -/
def failedChecks (p : List Nat) : List RejectReason :=
  (if p.length < 13 then [RejectReason.malformed] else []) ++
  (if rec_magic_num p ≠ MAGIC_NUMBER then [RejectReason.badMagic] else []) ++
  (if rec_packet_type p ≠ DT_RES then [RejectReason.wrongPacketType] else []) ++
  (if ¬(rec_lang_code p = 1 ∨ rec_lang_code p = 2 ∨ rec_lang_code p = 3) then
    [RejectReason.invalidLanguage] else []) ++
  (if 2100 ≤ rec_year p then [RejectReason.invalidYear] else []) ++
  (if rec_month p < 1 ∨ 12 < rec_month p then [RejectReason.invalidMonth] else []) ++
  (if rec_day p < 1 ∨ 31 < rec_day p then [RejectReason.invalidDay] else []) ++
  (if 24 < rec_hour p then [RejectReason.invalidHour] else []) ++
  (if 60 < rec_min p then [RejectReason.invalidMinute] else []) ++
  (if rec_len p + 13 ≠ p.length then [RejectReason.lengthMismatch] else []) ++
  (if (utf8DecodeBytes (p.drop 13)).isNone then [RejectReason.invalidEncoding] else [])

/-- Python `hex(n)` for a nonnegative integer. -/
def hexRepr (n : Nat) : String := "0x" ++ String.mk (Nat.toDigits 16 n)

/-- Zero-padded decimal rendering, Python format spec `{0:0Nd}`. -/
def zeroPad (width n : Nat) : String :=
  String.mk (List.replicate (width - (Nat.repr n).length) '0') ++ Nat.repr n

/-- The `date_str` print of client.py lines 176 and 180: slot 0 (width 4)
receives `rec_day`, slot 1 `rec_month`, slot 2 `rec_year`, slots 3 and 4
`rec_hour` and `rec_min`. -/
def date_line (day month year hour minute : Nat) : String :=
  "[DATA] -- Date: " ++ zeroPad 4 day ++ "-" ++ zeroPad 2 month ++ "-" ++ zeroPad 2 year
    ++ "\t\tTime: " ++ zeroPad 2 hour ++ ":" ++ zeroPad 2 minute

/-- The three `[DATA]` lines printed for an accepted packet (client.py lines
174-181); `none` when validation rejects the packet. -/
def output_lines (p : List Nat) : Option (List String) :=
  match process_packet p with
  | .error _ => none
  | .ok r =>
    some ["[DATA] -- Magic Number: " ++ hexRepr (rec_magic_num p) ++ "\t\tPacket type: "
            ++ Nat.repr (rec_packet_type p) ++ "\t\tLanguage code: " ++ Nat.repr r.languageCode,
          date_line r.day r.month r.year r.hour r.minute,
          "[DATA] -- Text: " ++ r.text]

/-- Function `packet_create` (client.py lines 58-74): `bytearray(6)` is zero-filled, so
bytes 4-5 keep the value 0 when `req_type` is neither recognised string (the
two source `if`s are sequential but mutually exclusive). -/
def packet_create (req_type : String) : List Nat :=
  if req_type = "date" then [0x49, 0x7E, 0x00, 0x01, 0x00, 0x01]
  else if req_type = "time" then [0x49, 0x7E, 0x00, 0x01, 0x00, 0x02]
  else [0x49, 0x7E, 0x00, 0x01, 0x00, 0x00]

/-- Result of one client exchange. -/
inductive Outcome where
  | timeout
  | rejected (r : RejectReason)
  | accepted (r : Response)
  deriving DecidableEq, Repr

/-- The client exchange after the request is sent: `socket_open` lines 100-118
plus `process_packet` (client.py lines 121-181, called from `main`).  The
`recv` argument is the datagram delivered before the 1.0 s timeout, or `none`
when `select` timed out.  The boolean records whether `sock.close()` (line
116) was executed on that control path: the timeout branch calls `sys.exit()`
at line 106, which raises before the close is reached, while the receive
branch closes the socket before `process_packet` runs. -/
def exchange (recv : Option (List Nat)) : Outcome × Bool :=
  match recv with
  | none => (Outcome.timeout, false)
  | some p =>
    match process_packet p with
    | .error r => (Outcome.rejected r, true)
    | .ok resp => (Outcome.accepted resp, true)

end Client

/-- Byte-level constructor for candidate DT-Response packets used to state the
decoder claims: the 13 header bytes in wire order followed by the text bytes.
(`m0 m1` magic, `t0 t1` packet type, `l0 l1` language code, `y0 y1` year.) -/
def mkResponseBytes (m0 m1 t0 t1 l0 l1 y0 y1 month day hour minute len : Nat)
    (text : List Nat) : List Nat :=
  [m0, m1, t0, t1, l0, l1, y0, y1, month, day, hour, minute, len] ++ text

/-! ## Helper lemmas: field extraction from a packet literal -/

theorem length_mkResponseBytes (m0 m1 t0 t1 l0 l1 y0 y1 mo d h mi len : Nat) (t : List Nat) :
    (mkResponseBytes m0 m1 t0 t1 l0 l1 y0 y1 mo d h mi len t).length = 13 + t.length := by
  simp [mkResponseBytes]
  omega

theorem drop13_mkResponseBytes (m0 m1 t0 t1 l0 l1 y0 y1 mo d h mi len : Nat) (t : List Nat) :
    (mkResponseBytes m0 m1 t0 t1 l0 l1 y0 y1 mo d h mi len t).drop 13 = t := rfl

theorem rec_magic_num_mk (m0 m1 t0 t1 l0 l1 y0 y1 mo d h mi len : Nat) (t : List Nat) :
    Client.rec_magic_num (mkResponseBytes m0 m1 t0 t1 l0 l1 y0 y1 mo d h mi len t)
      = m0 * 256 + m1 := rfl

theorem rec_packet_type_mk (m0 m1 t0 t1 l0 l1 y0 y1 mo d h mi len : Nat) (t : List Nat) :
    Client.rec_packet_type (mkResponseBytes m0 m1 t0 t1 l0 l1 y0 y1 mo d h mi len t)
      = t0 * 256 + t1 := rfl

theorem rec_lang_code_mk (m0 m1 t0 t1 l0 l1 y0 y1 mo d h mi len : Nat) (t : List Nat) :
    Client.rec_lang_code (mkResponseBytes m0 m1 t0 t1 l0 l1 y0 y1 mo d h mi len t)
      = l0 * 256 + l1 := rfl

theorem rec_year_mk (m0 m1 t0 t1 l0 l1 y0 y1 mo d h mi len : Nat) (t : List Nat) :
    Client.rec_year (mkResponseBytes m0 m1 t0 t1 l0 l1 y0 y1 mo d h mi len t)
      = y0 * 256 + y1 := rfl

theorem rec_month_mk (m0 m1 t0 t1 l0 l1 y0 y1 mo d h mi len : Nat) (t : List Nat) :
    Client.rec_month (mkResponseBytes m0 m1 t0 t1 l0 l1 y0 y1 mo d h mi len t) = mo := rfl

theorem rec_day_mk (m0 m1 t0 t1 l0 l1 y0 y1 mo d h mi len : Nat) (t : List Nat) :
    Client.rec_day (mkResponseBytes m0 m1 t0 t1 l0 l1 y0 y1 mo d h mi len t) = d := rfl

theorem rec_hour_mk (m0 m1 t0 t1 l0 l1 y0 y1 mo d h mi len : Nat) (t : List Nat) :
    Client.rec_hour (mkResponseBytes m0 m1 t0 t1 l0 l1 y0 y1 mo d h mi len t) = h := rfl

theorem rec_min_mk (m0 m1 t0 t1 l0 l1 y0 y1 mo d h mi len : Nat) (t : List Nat) :
    Client.rec_min (mkResponseBytes m0 m1 t0 t1 l0 l1 y0 y1 mo d h mi len t) = mi := rfl

theorem rec_len_mk (m0 m1 t0 t1 l0 l1 y0 y1 mo d h mi len : Nat) (t : List Nat) :
    Client.rec_len (mkResponseBytes m0 m1 t0 t1 l0 l1 y0 y1 mo d h mi len t) = len := rfl

/-- Function `create_packet` emits exactly the generic byte layout. -/
theorem create_packet_eq_mk (rt lc y mo d h mi : Nat) :
    Server.create_packet rt lc y mo d h mi =
      mkResponseBytes 0x49 0x7E 0x00 0x02 (lc / 256) (lc % 256) (y / 256) (y % 256) mo d h mi
        (utf8Encode (Server.response_text rt lc y mo d h mi)).length
        (utf8Encode (Server.response_text rt lc y mo d h mi)) := rfl

/-- A packet whose header fields are all in range and whose text is the UTF-8
encoding of `s` with a correct length byte is accepted by the client, which
recovers every field. -/
theorem process_packet_mk_ok (l0 l1 y0 y1 mo d h mi : Nat) (s : String)
    (hlang : l0 * 256 + l1 = 1 ∨ l0 * 256 + l1 = 2 ∨ l0 * 256 + l1 = 3)
    (hy : y0 * 256 + y1 < 2100) (hmo1 : 1 ≤ mo) (hmo2 : mo ≤ 12)
    (hd1 : 1 ≤ d) (hd2 : d ≤ 31) (hh : h ≤ 24) (hmi : mi ≤ 60) :
    Client.process_packet (mkResponseBytes 0x49 0x7E 0x00 0x02 l0 l1 y0 y1 mo d h mi
        (utf8Encode s).length (utf8Encode s)) =
      .ok ⟨l0 * 256 + l1, y0 * 256 + y1, mo, d, h, mi, s⟩ := by
  unfold Client.process_packet
  rw [length_mkResponseBytes, rec_magic_num_mk, rec_packet_type_mk, rec_lang_code_mk,
    rec_year_mk, rec_month_mk, rec_day_mk, rec_hour_mk, rec_min_mk, rec_len_mk,
    drop13_mkResponseBytes]
  have k0 : ¬(13 + (utf8Encode s).length < 13) := by omega
  have k1 : ¬(0x49 * 256 + 0x7E ≠ MAGIC_NUMBER) := by unfold MAGIC_NUMBER; omega
  have k2 : ¬(0x00 * 256 + 0x02 ≠ DT_RES) := by unfold DT_RES; omega
  have k3 : ¬¬(l0 * 256 + l1 = 1 ∨ l0 * 256 + l1 = 2 ∨ l0 * 256 + l1 = 3) := not_not_intro hlang
  have k4 : ¬2100 ≤ y0 * 256 + y1 := by omega
  have k5 : ¬(mo < 1 ∨ 12 < mo) := by omega
  have k6 : ¬(d < 1 ∨ 31 < d) := by omega
  have k7 : ¬24 < h := by omega
  have k8 : ¬60 < mi := by omega
  have k9 : ¬(utf8Encode s).length + 13 ≠ 13 + (utf8Encode s).length := by omega
  rw [if_neg k0, if_neg k1, if_neg k2, if_neg k3, if_neg k4, if_neg k5, if_neg k6, if_neg k7,
    if_neg k8, if_neg k9]
  rw [utf8DecodeBytes_utf8Encode]

/-- C1: for every requestKind in 1..2, languageCode in 1..3 and every `now`
with year < 2100, month 1..12, day 1..31, hour 0..23, minute 0..59, decoding
the bytes of `create_packet` succeeds, reproduces languageCode, year, month,
day, hour and minute exactly, and the decoded UTF-8 text is the localization
template for (requestKind, languageCode) instantiated with the month name,
day and year (date) or hour and minute (time). -/
theorem C1_response_roundtrip (rk lang y mo d h mi : Nat)
    (hrk : rk = 1 ∨ rk = 2) (hlang : lang = 1 ∨ lang = 2 ∨ lang = 3)
    (hy : y < 2100) (hmo1 : 1 ≤ mo) (hmo2 : mo ≤ 12) (hd1 : 1 ≤ d) (hd2 : d ≤ 31)
    (hh : h ≤ 23) (hmi : mi ≤ 59) :
    Client.process_packet (Server.create_packet rk lang y mo d h mi) =
        .ok ⟨lang, y, mo, d, h, mi, Server.response_text rk lang y mo d h mi⟩
      ∧ (rk = REQ_DATE →
          Server.response_text rk lang y mo d h mi = Server.date_text lang mo d y)
      ∧ (rk = REQ_TIME →
          Server.response_text rk lang y mo d h mi = Server.time_text lang h mi) := by
  refine ⟨?_, ?_, ?_⟩
  · rw [create_packet_eq_mk]
    have e1 : lang / 256 * 256 + lang % 256 = lang := by omega
    have e2 : y / 256 * 256 + y % 256 = y := by omega
    have := process_packet_mk_ok (lang / 256) (lang % 256) (y / 256) (y % 256) mo d h mi
      (Server.response_text rk lang y mo d h mi)
      (by rw [e1]; exact hlang) (by rw [e2]; exact hy) hmo1 hmo2 hd1 hd2
      (by omega) (by omega)
    rw [e1, e2] at this
    exact this
  · intro hr
    rw [Server.response_text, if_pos hr]
  · intro hr
    rw [Server.response_text, if_neg (by rw [hr]; unfold REQ_TIME REQ_DATE; omega), if_pos hr]

/-- Witness for C1 at a concrete input: a Māori date request served at
2018-08-21 10:30. -/
theorem C1_response_roundtrip_witness :
    Client.process_packet (Server.create_packet 1 2 2018 8 21 10 30) =
      .ok ⟨2, 2018, 8, 21, 10, 30, "Ko te ra o tenei ra ko Here-turi-kōkā 21, 2018"⟩ := by
  rw [(C1_response_roundtrip 1 2 2018 8 21 10 30 (by decide) (by decide) (by decide)
    (by decide) (by decide) (by decide) (by decide) (by decide) (by decide)).1]
  rfl

/-- The result of the client validation is determined by the first failing
check: the error reported is the head of `failedChecks`, and there is no
error exactly when no check fails. -/
theorem process_packet_error_iff (p : List Nat) (r : Client.RejectReason) :
    Client.process_packet p = .error r ↔ (Client.failedChecks p).head? = some r := by
  unfold Client.process_packet Client.failedChecks
  by_cases c1 : p.length < 13
  · simp [c1]
  rw [if_neg c1, if_neg c1, List.nil_append]
  by_cases c2 : Client.rec_magic_num p ≠ MAGIC_NUMBER
  · simp [c2]
  rw [if_neg c2, if_neg c2, List.nil_append]
  by_cases c3 : Client.rec_packet_type p ≠ DT_RES
  · simp [c3]
  rw [if_neg c3, if_neg c3, List.nil_append]
  by_cases c4 : ¬(Client.rec_lang_code p = 1 ∨ Client.rec_lang_code p = 2
      ∨ Client.rec_lang_code p = 3)
  · simp [c4]
  rw [if_neg c4, if_neg c4, List.nil_append]
  by_cases c5 : 2100 ≤ Client.rec_year p
  · simp [c5]
  rw [if_neg c5, if_neg c5, List.nil_append]
  by_cases c6 : Client.rec_month p < 1 ∨ 12 < Client.rec_month p
  · have c6' : Client.rec_month p = 0 ∨ 12 < Client.rec_month p := by omega
    simp [c6']
  rw [if_neg c6, if_neg c6, List.nil_append]
  by_cases c7 : Client.rec_day p < 1 ∨ 31 < Client.rec_day p
  · have c7' : Client.rec_day p = 0 ∨ 31 < Client.rec_day p := by omega
    simp [c7']
  rw [if_neg c7, if_neg c7, List.nil_append]
  by_cases c8 : 24 < Client.rec_hour p
  · simp [c8]
  rw [if_neg c8, if_neg c8, List.nil_append]
  by_cases c9 : 60 < Client.rec_min p
  · simp [c9]
  rw [if_neg c9, if_neg c9, List.nil_append]
  by_cases c10 : Client.rec_len p + 13 ≠ p.length
  · simp [c10]
  rw [if_neg c10, if_neg c10, List.nil_append]
  rcases hu : utf8DecodeBytes (p.drop 13) with _ | cs <;> simp [hu]

/-- C2: in an otherwise-valid Response, each single-field corruption (any
wrong magic, any wrong packet type, language code 0 or 4, year 2100, month 0
or 13, day 0 or 32, hour 25, minute 61, or a length byte off by one from the
actual remaining length) makes the client fail with exactly the RejectReason
belonging to that field. -/
theorem C2_rejection_completeness (l0 l1 y0 y1 mo d h mi : Nat) (t : List Nat)
    (hlang : l0 * 256 + l1 = 1 ∨ l0 * 256 + l1 = 2 ∨ l0 * 256 + l1 = 3)
    (hy : y0 * 256 + y1 < 2100) (hmo1 : 1 ≤ mo) (hmo2 : mo ≤ 12)
    (hd1 : 1 ≤ d) (hd2 : d ≤ 31) (hh : h ≤ 24) (hmi : mi ≤ 60) :
    (∀ m0 m1, m0 * 256 + m1 ≠ 0x497E →
      Client.process_packet (mkResponseBytes m0 m1 0x00 0x02 l0 l1 y0 y1 mo d h mi t.length t)
        = .error .badMagic)
    ∧ (∀ t0 t1, t0 * 256 + t1 ≠ 2 →
      Client.process_packet (mkResponseBytes 0x49 0x7E t0 t1 l0 l1 y0 y1 mo d h mi t.length t)
        = .error .wrongPacketType)
    ∧ Client.process_packet (mkResponseBytes 0x49 0x7E 0x00 0x02 0 0 y0 y1 mo d h mi t.length t)
        = .error .invalidLanguage
    ∧ Client.process_packet (mkResponseBytes 0x49 0x7E 0x00 0x02 0 4 y0 y1 mo d h mi t.length t)
        = .error .invalidLanguage
    ∧ Client.process_packet (mkResponseBytes 0x49 0x7E 0x00 0x02 l0 l1 8 52 mo d h mi t.length t)
        = .error .invalidYear
    ∧ Client.process_packet (mkResponseBytes 0x49 0x7E 0x00 0x02 l0 l1 y0 y1 0 d h mi t.length t)
        = .error .invalidMonth
    ∧ Client.process_packet (mkResponseBytes 0x49 0x7E 0x00 0x02 l0 l1 y0 y1 13 d h mi t.length t)
        = .error .invalidMonth
    ∧ Client.process_packet (mkResponseBytes 0x49 0x7E 0x00 0x02 l0 l1 y0 y1 mo 0 h mi t.length t)
        = .error .invalidDay
    ∧ Client.process_packet (mkResponseBytes 0x49 0x7E 0x00 0x02 l0 l1 y0 y1 mo 32 h mi t.length t)
        = .error .invalidDay
    ∧ Client.process_packet (mkResponseBytes 0x49 0x7E 0x00 0x02 l0 l1 y0 y1 mo d 25 mi t.length t)
        = .error .invalidHour
    ∧ Client.process_packet (mkResponseBytes 0x49 0x7E 0x00 0x02 l0 l1 y0 y1 mo d h 61 t.length t)
        = .error .invalidMinute
    ∧ Client.process_packet
        (mkResponseBytes 0x49 0x7E 0x00 0x02 l0 l1 y0 y1 mo d h mi (t.length + 1) t)
        = .error .lengthMismatch
    ∧ (1 ≤ t.length → Client.process_packet
        (mkResponseBytes 0x49 0x7E 0x00 0x02 l0 l1 y0 y1 mo d h mi (t.length - 1) t)
        = .error .lengthMismatch) := by
  have hv0 : ¬(13 + t.length < 13) := by omega
  have hvY : ¬2100 ≤ y0 * 256 + y1 := by omega
  have hvM : ¬(mo < 1 ∨ 12 < mo) := by omega
  have hvMn : ¬(mo = 0 ∨ 12 < mo) := by omega
  have hvD : ¬(d < 1 ∨ 31 < d) := by omega
  have hvDn : ¬(d = 0 ∨ 31 < d) := by omega
  have hvH : ¬24 < h := by omega
  have hvMi : ¬60 < mi := by omega
  have hvL : ¬(t.length + 13 ≠ 13 + t.length) := by omega
  refine ⟨?_, ?_, ?_, ?_, ?_, ?_, ?_, ?_, ?_, ?_, ?_, ?_, ?_⟩
  · intro m0 m1 hm
    apply (process_packet_error_iff _ _).mpr
    simp [Client.failedChecks, rec_magic_num_mk, rec_packet_type_mk, rec_lang_code_mk,
      rec_year_mk, rec_month_mk, rec_day_mk, rec_hour_mk, rec_min_mk, rec_len_mk,
      length_mkResponseBytes, drop13_mkResponseBytes, MAGIC_NUMBER, DT_RES,
      hv0, hlang, hvY, hvM, hvMn, hvD, hvDn, hvH, hvMi, hvL, hm]
  · intro t0 t1 htp
    apply (process_packet_error_iff _ _).mpr
    simp [Client.failedChecks, rec_magic_num_mk, rec_packet_type_mk, rec_lang_code_mk,
      rec_year_mk, rec_month_mk, rec_day_mk, rec_hour_mk, rec_min_mk, rec_len_mk,
      length_mkResponseBytes, drop13_mkResponseBytes, MAGIC_NUMBER, DT_RES,
      hv0, hlang, hvY, hvM, hvMn, hvD, hvDn, hvH, hvMi, hvL, htp]
  · apply (process_packet_error_iff _ _).mpr
    simp [Client.failedChecks, rec_magic_num_mk, rec_packet_type_mk, rec_lang_code_mk,
      rec_year_mk, rec_month_mk, rec_day_mk, rec_hour_mk, rec_min_mk, rec_len_mk,
      length_mkResponseBytes, drop13_mkResponseBytes, MAGIC_NUMBER, DT_RES,
      hv0, hlang, hvY, hvM, hvMn, hvD, hvDn, hvH, hvMi, hvL]
  · apply (process_packet_error_iff _ _).mpr
    simp [Client.failedChecks, rec_magic_num_mk, rec_packet_type_mk, rec_lang_code_mk,
      rec_year_mk, rec_month_mk, rec_day_mk, rec_hour_mk, rec_min_mk, rec_len_mk,
      length_mkResponseBytes, drop13_mkResponseBytes, MAGIC_NUMBER, DT_RES,
      hv0, hlang, hvY, hvM, hvMn, hvD, hvDn, hvH, hvMi, hvL]
  · apply (process_packet_error_iff _ _).mpr
    simp [Client.failedChecks, rec_magic_num_mk, rec_packet_type_mk, rec_lang_code_mk,
      rec_year_mk, rec_month_mk, rec_day_mk, rec_hour_mk, rec_min_mk, rec_len_mk,
      length_mkResponseBytes, drop13_mkResponseBytes, MAGIC_NUMBER, DT_RES,
      hv0, hlang, hvY, hvM, hvMn, hvD, hvDn, hvH, hvMi, hvL]
  · apply (process_packet_error_iff _ _).mpr
    simp [Client.failedChecks, rec_magic_num_mk, rec_packet_type_mk, rec_lang_code_mk,
      rec_year_mk, rec_month_mk, rec_day_mk, rec_hour_mk, rec_min_mk, rec_len_mk,
      length_mkResponseBytes, drop13_mkResponseBytes, MAGIC_NUMBER, DT_RES,
      hv0, hlang, hvY, hvM, hvMn, hvD, hvDn, hvH, hvMi, hvL]
  · apply (process_packet_error_iff _ _).mpr
    simp [Client.failedChecks, rec_magic_num_mk, rec_packet_type_mk, rec_lang_code_mk,
      rec_year_mk, rec_month_mk, rec_day_mk, rec_hour_mk, rec_min_mk, rec_len_mk,
      length_mkResponseBytes, drop13_mkResponseBytes, MAGIC_NUMBER, DT_RES,
      hv0, hlang, hvY, hvM, hvMn, hvD, hvDn, hvH, hvMi, hvL]
  · apply (process_packet_error_iff _ _).mpr
    simp [Client.failedChecks, rec_magic_num_mk, rec_packet_type_mk, rec_lang_code_mk,
      rec_year_mk, rec_month_mk, rec_day_mk, rec_hour_mk, rec_min_mk, rec_len_mk,
      length_mkResponseBytes, drop13_mkResponseBytes, MAGIC_NUMBER, DT_RES,
      hv0, hlang, hvY, hvM, hvMn, hvD, hvDn, hvH, hvMi, hvL]
  · apply (process_packet_error_iff _ _).mpr
    simp [Client.failedChecks, rec_magic_num_mk, rec_packet_type_mk, rec_lang_code_mk,
      rec_year_mk, rec_month_mk, rec_day_mk, rec_hour_mk, rec_min_mk, rec_len_mk,
      length_mkResponseBytes, drop13_mkResponseBytes, MAGIC_NUMBER, DT_RES,
      hv0, hlang, hvY, hvM, hvMn, hvD, hvDn, hvH, hvMi, hvL]
  · apply (process_packet_error_iff _ _).mpr
    simp [Client.failedChecks, rec_magic_num_mk, rec_packet_type_mk, rec_lang_code_mk,
      rec_year_mk, rec_month_mk, rec_day_mk, rec_hour_mk, rec_min_mk, rec_len_mk,
      length_mkResponseBytes, drop13_mkResponseBytes, MAGIC_NUMBER, DT_RES,
      hv0, hlang, hvY, hvM, hvMn, hvD, hvDn, hvH, hvMi, hvL]
  · apply (process_packet_error_iff _ _).mpr
    simp [Client.failedChecks, rec_magic_num_mk, rec_packet_type_mk, rec_lang_code_mk,
      rec_year_mk, rec_month_mk, rec_day_mk, rec_hour_mk, rec_min_mk, rec_len_mk,
      length_mkResponseBytes, drop13_mkResponseBytes, MAGIC_NUMBER, DT_RES,
      hv0, hlang, hvY, hvM, hvMn, hvD, hvDn, hvH, hvMi, hvL]
  · apply (process_packet_error_iff _ _).mpr
    have hx : t.length + 1 + 13 ≠ 13 + t.length := by omega
    simp [Client.failedChecks, rec_magic_num_mk, rec_packet_type_mk, rec_lang_code_mk,
      rec_year_mk, rec_month_mk, rec_day_mk, rec_hour_mk, rec_min_mk, rec_len_mk,
      length_mkResponseBytes, drop13_mkResponseBytes, MAGIC_NUMBER, DT_RES,
      hv0, hlang, hvY, hvM, hvMn, hvD, hvDn, hvH, hvMi, hvL, hx]
  · intro ht
    apply (process_packet_error_iff _ _).mpr
    have hx : t.length - 1 + 13 ≠ 13 + t.length := by omega
    simp [Client.failedChecks, rec_magic_num_mk, rec_packet_type_mk, rec_lang_code_mk,
      rec_year_mk, rec_month_mk, rec_day_mk, rec_hour_mk, rec_min_mk, rec_len_mk,
      length_mkResponseBytes, drop13_mkResponseBytes, MAGIC_NUMBER, DT_RES,
      hv0, hlang, hvY, hvM, hvMn, hvD, hvDn, hvH, hvMi, hvL, hx]

/-- Witness for C2 at a concrete otherwise-valid packet (language 1, year
2018, month 8, day 21, hour 10, minute 30, one text byte). -/
theorem C2_rejection_completeness_witness :
    Client.process_packet (mkResponseBytes 0 0 0x00 0x02 0 1 7 226 8 21 10 30 1 [65])
        = .error .badMagic
    ∧ Client.process_packet (mkResponseBytes 0x49 0x7E 0 1 0 1 7 226 8 21 10 30 1 [65])
        = .error .wrongPacketType
    ∧ Client.process_packet (mkResponseBytes 0x49 0x7E 0x00 0x02 0 0 7 226 8 21 10 30 1 [65])
        = .error .invalidLanguage
    ∧ Client.process_packet (mkResponseBytes 0x49 0x7E 0x00 0x02 0 4 7 226 8 21 10 30 1 [65])
        = .error .invalidLanguage
    ∧ Client.process_packet (mkResponseBytes 0x49 0x7E 0x00 0x02 0 1 8 52 8 21 10 30 1 [65])
        = .error .invalidYear
    ∧ Client.process_packet (mkResponseBytes 0x49 0x7E 0x00 0x02 0 1 7 226 0 21 10 30 1 [65])
        = .error .invalidMonth
    ∧ Client.process_packet (mkResponseBytes 0x49 0x7E 0x00 0x02 0 1 7 226 13 21 10 30 1 [65])
        = .error .invalidMonth
    ∧ Client.process_packet (mkResponseBytes 0x49 0x7E 0x00 0x02 0 1 7 226 8 0 10 30 1 [65])
        = .error .invalidDay
    ∧ Client.process_packet (mkResponseBytes 0x49 0x7E 0x00 0x02 0 1 7 226 8 32 10 30 1 [65])
        = .error .invalidDay
    ∧ Client.process_packet (mkResponseBytes 0x49 0x7E 0x00 0x02 0 1 7 226 8 21 25 30 1 [65])
        = .error .invalidHour
    ∧ Client.process_packet (mkResponseBytes 0x49 0x7E 0x00 0x02 0 1 7 226 8 21 10 61 1 [65])
        = .error .invalidMinute
    ∧ Client.process_packet (mkResponseBytes 0x49 0x7E 0x00 0x02 0 1 7 226 8 21 10 30 2 [65])
        = .error .lengthMismatch
    ∧ Client.process_packet (mkResponseBytes 0x49 0x7E 0x00 0x02 0 1 7 226 8 21 10 30 0 [65])
        = .error .lengthMismatch := by
  have base := C2_rejection_completeness 0 1 7 226 8 21 10 30 [65] (by omega) (by omega)
    (by omega) (by omega) (by omega) (by omega) (by omega) (by omega)
  exact ⟨base.1 0 0 (by omega), base.2.1 0 1 (by omega), base.2.2.1, base.2.2.2.1,
    base.2.2.2.2.1, base.2.2.2.2.2.1, base.2.2.2.2.2.2.1, base.2.2.2.2.2.2.2.1,
    base.2.2.2.2.2.2.2.2.1, base.2.2.2.2.2.2.2.2.2.1, base.2.2.2.2.2.2.2.2.2.2.1,
    base.2.2.2.2.2.2.2.2.2.2.2.1, base.2.2.2.2.2.2.2.2.2.2.2.2 (by decide)⟩

/-- C5: the client decoder evaluates its checks in the fixed source order
(length, magic, packet type, language, year, month, day, hour, minute,
declared length, UTF-8) and stops at the first failure: the reported reason
is always the head of the ordered list of failing checks. -/
theorem C5_fail_fast_order (p : List Nat) (r : Client.RejectReason) :
    Client.process_packet p = .error r ↔ (Client.failedChecks p).head? = some r :=
  process_packet_error_iff p r

/-- C6: otherwise-valid packets carrying each boundary value hour 24,
minute 60, year 2099, month 12 or day 31 are all accepted by the client
decoder, with every field recovered. -/
theorem C6_boundary_acceptance (l0 l1 y0 y1 mo d h mi : Nat) (s : String)
    (hlang : l0 * 256 + l1 = 1 ∨ l0 * 256 + l1 = 2 ∨ l0 * 256 + l1 = 3)
    (hy : y0 * 256 + y1 < 2100) (hmo1 : 1 ≤ mo) (hmo2 : mo ≤ 12)
    (hd1 : 1 ≤ d) (hd2 : d ≤ 31) (hh : h ≤ 24) (hmi : mi ≤ 60) :
    Client.process_packet (mkResponseBytes 0x49 0x7E 0x00 0x02 l0 l1 y0 y1 mo d 24 mi
        (utf8Encode s).length (utf8Encode s))
      = .ok ⟨l0 * 256 + l1, y0 * 256 + y1, mo, d, 24, mi, s⟩
    ∧ Client.process_packet (mkResponseBytes 0x49 0x7E 0x00 0x02 l0 l1 y0 y1 mo d h 60
        (utf8Encode s).length (utf8Encode s))
      = .ok ⟨l0 * 256 + l1, y0 * 256 + y1, mo, d, h, 60, s⟩
    ∧ Client.process_packet (mkResponseBytes 0x49 0x7E 0x00 0x02 l0 l1 8 51 mo d h mi
        (utf8Encode s).length (utf8Encode s))
      = .ok ⟨l0 * 256 + l1, 2099, mo, d, h, mi, s⟩
    ∧ Client.process_packet (mkResponseBytes 0x49 0x7E 0x00 0x02 l0 l1 y0 y1 12 d h mi
        (utf8Encode s).length (utf8Encode s))
      = .ok ⟨l0 * 256 + l1, y0 * 256 + y1, 12, d, h, mi, s⟩
    ∧ Client.process_packet (mkResponseBytes 0x49 0x7E 0x00 0x02 l0 l1 y0 y1 mo 31 h mi
        (utf8Encode s).length (utf8Encode s))
      = .ok ⟨l0 * 256 + l1, y0 * 256 + y1, mo, 31, h, mi, s⟩ := by
  refine ⟨process_packet_mk_ok l0 l1 y0 y1 mo d 24 mi s hlang hy hmo1 hmo2 hd1 hd2
      (le_refl 24) hmi,
    process_packet_mk_ok l0 l1 y0 y1 mo d h 60 s hlang hy hmo1 hmo2 hd1 hd2 hh (le_refl 60),
    ?_,
    process_packet_mk_ok l0 l1 y0 y1 12 d h mi s hlang hy (by omega) (le_refl 12) hd1 hd2
      hh hmi,
    process_packet_mk_ok l0 l1 y0 y1 mo 31 h mi s hlang hy hmo1 hmo2 (by omega) (le_refl 31)
      hh hmi⟩
  have := process_packet_mk_ok l0 l1 8 51 mo d h mi s hlang (by omega) hmo1 hmo2 hd1 hd2 hh hmi
  simpa using this

/-- Witness for C6 at a concrete base packet: German language bytes, year
bytes 7/226 (2018), month 5, day 15, hour 11, minute 22, text "hi". -/
theorem C6_boundary_acceptance_witness :
    Client.process_packet (mkResponseBytes 0x49 0x7E 0x00 0x02 0 3 7 226 5 15 24 22
        (utf8Encode "hi").length (utf8Encode "hi"))
      = .ok ⟨3, 2018, 5, 15, 24, 22, "hi"⟩
    ∧ Client.process_packet (mkResponseBytes 0x49 0x7E 0x00 0x02 0 3 7 226 5 15 11 60
        (utf8Encode "hi").length (utf8Encode "hi"))
      = .ok ⟨3, 2018, 5, 15, 11, 60, "hi"⟩
    ∧ Client.process_packet (mkResponseBytes 0x49 0x7E 0x00 0x02 0 3 8 51 5 15 11 22
        (utf8Encode "hi").length (utf8Encode "hi"))
      = .ok ⟨3, 2099, 5, 15, 11, 22, "hi"⟩
    ∧ Client.process_packet (mkResponseBytes 0x49 0x7E 0x00 0x02 0 3 7 226 12 15 11 22
        (utf8Encode "hi").length (utf8Encode "hi"))
      = .ok ⟨3, 2018, 12, 15, 11, 22, "hi"⟩
    ∧ Client.process_packet (mkResponseBytes 0x49 0x7E 0x00 0x02 0 3 7 226 5 31 11 22
        (utf8Encode "hi").length (utf8Encode "hi"))
      = .ok ⟨3, 2018, 5, 31, 11, 22, "hi"⟩ := by
  have base := C6_boundary_acceptance 0 3 7 226 5 15 11 22 "hi" (by omega) (by omega)
    (by omega) (by omega) (by omega) (by omega) (by omega) (by omega)
  simpa using base

/-- C3 counterexample: the 6-byte datagram 49 7E 00 01 00 00 is a structurally
valid Request (magic 0x497E, packet type 1) with requestKind 0, yet the
server sends nothing back: `process_packet` returns the integer 0, which the
`if request:` test at server.py line 191 treats like `None`. -/
theorem C3_counterexample :
    Server.process_packet [0x49, 0x7E, 0x00, 0x01, 0x00, 0x00] = some 0
    ∧ Server.handle_datagram [0x49, 0x7E, 0x00, 0x01, 0x00, 0x00] 1 2018 8 21 10 30 = none :=
  ⟨rfl, rfl⟩

/-- C3 amended: on a structurally valid Request the server replies iff the
byte at index 5 (the low byte of requestKind — the high byte at index 4 is
ignored) is nonzero; when that byte is neither 1 nor 2 the Response carries
empty text (`textLength` 0 and no text bytes); when it is 0 the datagram is
dropped with no reply. -/
theorem C3_amended (p : List Nat) (lang y mo d h mi : Nat)
    (hlen : p.length = 6)
    (hmagic : p.getD 0 0 * 256 + p.getD 1 0 = 0x497E)
    (htype : p.getD 2 0 * 256 + p.getD 3 0 = 1) :
    (p.getD 5 0 = 0 → Server.handle_datagram p lang y mo d h mi = none)
    ∧ (p.getD 5 0 ≠ 0 →
        Server.handle_datagram p lang y mo d h mi
          = some (Server.create_packet (p.getD 5 0) lang y mo d h mi))
    ∧ (p.getD 5 0 ≠ 1 → p.getD 5 0 ≠ 2 →
        Server.response_text (p.getD 5 0) lang y mo d h mi = ""
        ∧ Client.rec_len (Server.create_packet (p.getD 5 0) lang y mo d h mi) = 0
        ∧ (Server.create_packet (p.getD 5 0) lang y mo d h mi).drop 13 = []) := by
  have hreq : Server.process_packet p = some (p.getD 5 0) := by
    unfold Server.process_packet MAGIC_NUMBER DT_REQ
    have q1 : ¬(6 ≠ 6) := by omega
    have q2 : ¬(p.getD 0 0 * 256 + p.getD 1 0 ≠ 18814) := by omega
    have q3 : ¬(p.getD 2 0 * 256 + p.getD 3 0 ≠ 1) := by omega
    rw [hlen, if_neg q1, if_neg q2, if_neg q3]
  have htext : p.getD 5 0 ≠ 1 → p.getD 5 0 ≠ 2 →
      Server.response_text (p.getD 5 0) lang y mo d h mi = "" := by
    intro h1 h2
    unfold Server.response_text REQ_DATE REQ_TIME
    rw [if_neg h1, if_neg h2]
  refine ⟨?_, ?_, ?_⟩
  · intro h0
    unfold Server.handle_datagram
    rw [hreq]
    dsimp only
    rw [if_pos h0]
  · intro h0
    unfold Server.handle_datagram
    rw [hreq]
    dsimp only
    rw [if_neg h0]
  · intro h1 h2
    refine ⟨htext h1 h2, ?_, ?_⟩
    · rw [create_packet_eq_mk, rec_len_mk, htext h1 h2]
      rfl
    · rw [create_packet_eq_mk, drop13_mkResponseBytes, htext h1 h2]
      rfl

/-- Witness for C3 (amended) at requestKind byte 3: the server answers with a
Response whose text-length byte is 0. -/
theorem C3_amended_witness :
    Server.handle_datagram [0x49, 0x7E, 0x00, 0x01, 0x00, 0x03] 1 2018 8 21 10 30
      = some (Server.create_packet 3 1 2018 8 21 10 30)
    ∧ Client.rec_len (Server.create_packet 3 1 2018 8 21 10 30) = 0
    ∧ (Server.create_packet 3 1 2018 8 21 10 30).drop 13 = [] := by
  have base := C3_amended [0x49, 0x7E, 0x00, 0x01, 0x00, 0x03] 1 2018 8 21 10 30
    (by decide) (by decide) (by decide)
  exact ⟨base.2.1 (by decide), (base.2.2 (by decide) (by decide)).2.1,
    (base.2.2 (by decide) (by decide)).2.2⟩

/-- C4 counterexample: on the valid Request whose requestKind bytes are
01 00 (the 16-bit big-endian value 256), the server decoder returns 0 — the
byte at index 5 alone (`packet[5:6]` at server.py line 102) — not 256. -/
theorem C4_counterexample :
    Server.process_packet [0x49, 0x7E, 0x00, 0x01, 0x01, 0x00] = some 0
    ∧ Server.process_packet [0x49, 0x7E, 0x00, 0x01, 0x01, 0x00] ≠ some (0x01 * 256 + 0x00) :=
  ⟨rfl, by decide⟩

/-- C4 amended: for every 6-byte input with magic 0x497E and packet type 1,
the request decoder succeeds and returns the single byte at index 5 (the low
byte of the requestKind field; the byte at index 4 is ignored), without
validating its value. -/
theorem C4_amended (p : List Nat)
    (hlen : p.length = 6)
    (hmagic : p.getD 0 0 * 256 + p.getD 1 0 = 0x497E)
    (htype : p.getD 2 0 * 256 + p.getD 3 0 = 1) :
    Server.process_packet p = some (p.getD 5 0) := by
  unfold Server.process_packet MAGIC_NUMBER DT_REQ
  have q1 : ¬(6 ≠ 6) := by omega
  have q2 : ¬(p.getD 0 0 * 256 + p.getD 1 0 ≠ 18814) := by omega
  have q3 : ¬(p.getD 2 0 * 256 + p.getD 3 0 ≠ 1) := by omega
  rw [hlen, if_neg q1, if_neg q2, if_neg q3]

/-- Witness for C4 (amended): a request with kind byte 7 decodes to 7. -/
theorem C4_amended_witness :
    Server.process_packet [0x49, 0x7E, 0x00, 0x01, 0x00, 0x07] = some 7 := by
  have base := C4_amended [0x49, 0x7E, 0x00, 0x01, 0x00, 0x07] (by decide) (by decide)
    (by decide)
  simpa using base

/-- C7: on any datagram the request decoder rejects (length different from 6,
wrong magic number, or packet type different from 1) the server sends no
response of any kind, and the receive loop continues: the remaining arrivals
are processed exactly as they would have been. -/
theorem C7_drop_no_response (p : List Nat) (lang y mo d h mi : Nat)
    (hbad : p.length ≠ 6
      ∨ p.getD 0 0 * 256 + p.getD 1 0 ≠ 0x497E
      ∨ p.getD 2 0 * 256 + p.getD 3 0 ≠ 1) :
    Server.handle_datagram p lang y mo d h mi = none
    ∧ ∀ rest : List Server.Arrival,
        Server.run (⟨p, lang, y, mo, d, h, mi⟩ :: rest) = none :: Server.run rest := by
  have hp : Server.process_packet p = none := by
    unfold Server.process_packet MAGIC_NUMBER DT_REQ
    rcases hbad with h' | h' | h'
    · rw [if_pos h']
    · by_cases h1 : p.length ≠ 6
      · rw [if_pos h1]
      · rw [if_neg h1, if_pos (by omega)]
    · by_cases h1 : p.length ≠ 6
      · rw [if_pos h1]
      · rw [if_neg h1]
        by_cases h2 : p.getD 0 0 * 256 + p.getD 1 0 ≠ 18814
        · rw [if_pos h2]
        · rw [if_neg h2, if_pos (by omega)]
  have hh : Server.handle_datagram p lang y mo d h mi = none := by
    unfold Server.handle_datagram
    rw [hp]
  refine ⟨hh, fun rest => ?_⟩
  simp only [Server.run]
  rw [hh]

/-- Witness for C7: the §8 malformed-request scenario FF FF 00 01 00 02 00 00
(bad magic, and 8 bytes long) is dropped without an answer and the loop goes
on. -/
theorem C7_drop_no_response_witness :
    Server.handle_datagram [0xFF, 0xFF, 0x00, 0x01, 0x00, 0x02, 0x00, 0x00] 1 2018 8 21 10 30
      = none
    ∧ Server.run [⟨[0xFF, 0xFF, 0x00, 0x01, 0x00, 0x02, 0x00, 0x00], 1, 2018, 8, 21, 10, 30⟩]
      = [none] := by
  have base := C7_drop_no_response [0xFF, 0xFF, 0x00, 0x01, 0x00, 0x02, 0x00, 0x00]
    1 2018 8 21 10 30 (Or.inl (by decide))
  exact ⟨base.1, base.2 []⟩

/-- C8 counterexample: on the timeout path the client calls `sys.exit()`
(client.py line 106) before ever reaching `sock.close()` (line 116), so the
socket is not closed on that exit path. -/
theorem C8_counterexample :
    Client.exchange none = (Client.Outcome.timeout, false) := rfl

/-- C8 amended: the client closes its socket on every exit path on which a
datagram is received — acceptance and every validation failure alike — but
the timeout path terminates the process without closing the socket. -/
theorem C8_amended (p : List Nat) :
    (Client.exchange (some p)).2 = true ∧ (Client.exchange none).2 = false := by
  refine ⟨?_, rfl⟩
  unfold Client.exchange
  rcases hE : Client.process_packet p with r | resp <;> simp [hE]

/-- C9: for any request-type string other than "date" and "time" the client
request encoder still returns the 6-byte packet with correct magic number and
packet type and a zero requestKind field, rather than failing. -/
theorem C9_unknown_kind_zero (s : String) (h1 : s ≠ "date") (h2 : s ≠ "time") :
    Client.packet_create s = [0x49, 0x7E, 0x00, 0x01, 0x00, 0x00] := by
  unfold Client.packet_create
  rw [if_neg h1, if_neg h2]

/-- Witness for C9 at the unrecognised request type "datetime". -/
theorem C9_unknown_kind_zero_witness :
    Client.packet_create "datetime" = [0x49, 0x7E, 0x00, 0x01, 0x00, 0x00] :=
  C9_unknown_kind_zero "datetime" (by decide) (by decide)

/-- Inversion: the fields of an accepted packet are exactly the wire bytes the
client extracted (year from bytes 6-7 big-endian, month byte 8, day byte 9,
hour byte 10, minute byte 11). -/
theorem process_packet_ok_fields (p : List Nat) (r : Client.Response)
    (h : Client.process_packet p = .ok r) :
    r.languageCode = Client.rec_lang_code p ∧ r.year = Client.rec_year p
    ∧ r.month = Client.rec_month p ∧ r.day = Client.rec_day p
    ∧ r.hour = Client.rec_hour p ∧ r.minute = Client.rec_min p := by
  unfold Client.process_packet at h
  by_cases c1 : p.length < 13
  · rw [if_pos c1] at h
    exact absurd h (by simp)
  rw [if_neg c1] at h
  by_cases c2 : Client.rec_magic_num p ≠ MAGIC_NUMBER
  · rw [if_pos c2] at h
    exact absurd h (by simp)
  rw [if_neg c2] at h
  by_cases c3 : Client.rec_packet_type p ≠ DT_RES
  · rw [if_pos c3] at h
    exact absurd h (by simp)
  rw [if_neg c3] at h
  by_cases c4 : ¬(Client.rec_lang_code p = 1 ∨ Client.rec_lang_code p = 2
      ∨ Client.rec_lang_code p = 3)
  · rw [if_pos c4] at h
    exact absurd h (by simp)
  rw [if_neg c4] at h
  by_cases c5 : 2100 ≤ Client.rec_year p
  · rw [if_pos c5] at h
    exact absurd h (by simp)
  rw [if_neg c5] at h
  by_cases c6 : Client.rec_month p < 1 ∨ 12 < Client.rec_month p
  · rw [if_pos c6] at h
    exact absurd h (by simp)
  rw [if_neg c6] at h
  by_cases c7 : Client.rec_day p < 1 ∨ 31 < Client.rec_day p
  · rw [if_pos c7] at h
    exact absurd h (by simp)
  rw [if_neg c7] at h
  by_cases c8 : 24 < Client.rec_hour p
  · rw [if_pos c8] at h
    exact absurd h (by simp)
  rw [if_neg c8] at h
  by_cases c9 : 60 < Client.rec_min p
  · rw [if_pos c9] at h
    exact absurd h (by simp)
  rw [if_neg c9] at h
  by_cases c10 : Client.rec_len p + 13 ≠ p.length
  · rw [if_pos c10] at h
    exact absurd h (by simp)
  rw [if_neg c10] at h
  rcases hu : utf8DecodeBytes (p.drop 13) with _ | cs <;> rw [hu] at h
  · exact absurd h (by simp)
  · dsimp only at h
    rw [Except.ok.injEq] at h
    rw [← h]
    exact ⟨rfl, rfl, rfl, rfl, rfl, rfl⟩

/-- C10: every Response the client accepts is rendered with the numeric date
line in day-month-year order: the day byte goes into the leading 4-digit
slot, the month byte into the middle slot, and the year into the trailing
2-digit slot, followed by hour and minute. -/
theorem C10_date_line_order (p : List Nat) (r : Client.Response)
    (h : Client.process_packet p = .ok r) :
    Client.output_lines p
      = some ["[DATA] -- Magic Number: " ++ Client.hexRepr (Client.rec_magic_num p)
            ++ "\t\tPacket type: " ++ Nat.repr (Client.rec_packet_type p)
            ++ "\t\tLanguage code: " ++ Nat.repr (Client.rec_lang_code p),
          "[DATA] -- Date: " ++ Client.zeroPad 4 (Client.rec_day p) ++ "-"
            ++ Client.zeroPad 2 (Client.rec_month p) ++ "-"
            ++ Client.zeroPad 2 (Client.rec_year p)
            ++ "\t\tTime: " ++ Client.zeroPad 2 (Client.rec_hour p) ++ ":"
            ++ Client.zeroPad 2 (Client.rec_min p),
          "[DATA] -- Text: " ++ r.text] := by
  obtain ⟨hl, hy, hmo, hd, hh, hmi⟩ := process_packet_ok_fields p r h
  unfold Client.output_lines
  rw [h]
  dsimp only
  rw [Client.date_line, hl, hy, hmo, hd, hh, hmi]

/-- Witness for C10: a Response for 2018-08-21 10:30 renders the date line
with the day first, padded to four digits. -/
theorem C10_date_line_order_witness :
    Client.output_lines (mkResponseBytes 0x49 0x7E 0x00 0x02 0 1 7 226 8 21 10 30 0 [])
      = some ["[DATA] -- Magic Number: 0x497e\t\tPacket type: 2\t\tLanguage code: 1",
          "[DATA] -- Date: 0021-08-2018\t\tTime: 10:30",
          "[DATA] -- Text: "] := by
  have h : Client.process_packet (mkResponseBytes 0x49 0x7E 0x00 0x02 0 1 7 226 8 21 10 30 0 [])
      = .ok ⟨1, 2018, 8, 21, 10, 30, ""⟩ := by rfl
  rw [C10_date_line_order _ _ h]
  rfl
